import Mathlib

/-!
Verification of the tlvflow bike-sharing domain model.

This file gives a shallow embedding, in Lean 4, of the domain core of the
tlvflow repository (vehicles, users, rides, stations, the nearest-station
query, the password-hash encoding and the CSV vehicle loader), and proves
properties of that embedding.  Python integers are modelled as `Int`,
Python floats as `Rat` (exact arithmetic), Python `datetime` values as a
wall-clock reading together with an optional UTC offset, and fallible
Python code (code that can raise) as `Except`-valued functions.
-/

namespace TlvFlow

/-- Vehicle status enumeration, from `tlvflow/domain/enums.py`
(`VehicleStatus`: available, in_use, awaiting_report_review, degraded). -/
inductive VehicleStatus where
  | available
  | in_use
  | awaiting_report_review
  | degraded
deriving DecidableEq, Repr

/-- Ride status enumeration.  Modelled from the spec: `tlvflow/domain/models.py`
imports `RideStatus` from `tlvflow.domain.enums`, but the copy of `enums.py`
under `src/` lacks it; the spec data model gives
`status ∈ \x7bin_progress, completed\x7d`. -/
inductive RideStatus where
  | in_progress
  | completed
deriving DecidableEq, Repr

/-- A vehicle report as seen by `Vehicle.check_maintenance_needed`
(`tlvflow/domain/models.py`): the code only looks at the `_vehicle_id`
attribute, guarded by `hasattr`; `vehicle_id = none` models a report object
without that attribute. -/
structure VehicleReport where
  vehicle_id : Option String
deriving DecidableEq, Repr

/-- The per-subclass part of the vehicle hierarchy of
`tlvflow/domain/models.py`: `Bike` adds `has_child_seat`, `EBike` and
`Scooter` add `battery_level`. -/
inductive VehicleKind where
  | bike (has_child_seat : Bool)
  | ebike (battery_level : Int)
  | scooter (battery_level : Int)
deriving DecidableEq, Repr

/-- A vehicle, from `Vehicle.__init__` in `tlvflow/domain/models.py`,
together with the subclass data. -/
structure Vehicle where
  vehicle_id : String
  frame_number : String
  status : VehicleStatus
  ride_count : Int
  has_helmet : Bool
  last_maintenance_ride_count : Int
  kind : VehicleKind
deriving DecidableEq, Repr

/-- `Bike.__init__` (`tlvflow/domain/models.py`): the base constructor sets
`ride_count = 0`, `has_helmet = False`, `_last_maintenance_ride_count = 0`;
the subclass stores `has_child_seat`.  `Bike` construction cannot fail. -/
def Bike.init (vehicle_id frame_number : String) (has_child_seat : Bool)
    (status : VehicleStatus) : Vehicle :=
  { vehicle_id := vehicle_id
    frame_number := frame_number
    status := status
    ride_count := 0
    has_helmet := false
    last_maintenance_ride_count := 0
    kind := .bike has_child_seat }

/-- `EBike.__init__` (`tlvflow/domain/models.py`): raises `ValueError` unless
`0 <= battery_level <= 100`. -/
def EBike.init (vehicle_id frame_number : String) (battery_level : Int)
    (status : VehicleStatus) : Except String Vehicle :=
  if 0 ≤ battery_level ∧ battery_level ≤ 100 then
    .ok { vehicle_id := vehicle_id
          frame_number := frame_number
          status := status
          ride_count := 0
          has_helmet := false
          last_maintenance_ride_count := 0
          kind := .ebike battery_level }
  else .error ("Battery level must be between 0 and 100")

/-- `Scooter.__init__` (`tlvflow/domain/models.py`): raises `ValueError`
unless `0 <= battery_level <= 100`. -/
def Scooter.init (vehicle_id frame_number : String) (battery_level : Int)
    (status : VehicleStatus) : Except String Vehicle :=
  if 0 ≤ battery_level ∧ battery_level ≤ 100 then
    .ok { vehicle_id := vehicle_id
          frame_number := frame_number
          status := status
          ride_count := 0
          has_helmet := false
          last_maintenance_ride_count := 0
          kind := .scooter battery_level }
  else .error ("Battery level must be between 0 and 100")

/-- Does one report reference this vehicle?  Models the loop body of
`Vehicle.check_maintenance_needed`:
`hasattr(report, "_vehicle_id") and report._vehicle_id == self._vehicle_id`. -/
def reportMatches (v : Vehicle) (r : VehicleReport) : Bool :=
  match r.vehicle_id with
  | some id => id == v.vehicle_id
  | none => false

/-- `Vehicle.check_maintenance_needed` with the subclass overrides
(`tlvflow/domain/models.py`).  The base method early-returns `true` when
`ride_count - _last_maintenance_ride_count >= 10`, then scans the optional
report list (`if reports:` skips both `None` and the empty list, which a
scan of the empty list also makes `false`), and returns `false` otherwise.
`EBike.check_maintenance_needed` and `Scooter.check_maintenance_needed`
additionally return `true` when `battery_level < 20`;
`Bike.check_maintenance_needed` just delegates to the base method. -/
def Vehicle.check_maintenance_needed (v : Vehicle)
    (reports : Option (List VehicleReport)) : Bool :=
  let base := decide (10 ≤ v.ride_count - v.last_maintenance_ride_count)
    || (reports.getD []).any (reportMatches v)
  match v.kind with
  | .bike _ => base
  | .ebike b => base || decide (b < 20)
  | .scooter b => base || decide (b < 20)

/-- `Vehicle.complete_maintenance` (`tlvflow/domain/models.py`): sets
`_last_maintenance_ride_count = ride_count` and nothing else. -/
def Vehicle.complete_maintenance (v : Vehicle) : Vehicle :=
  { v with last_maintenance_ride_count := v.ride_count }

/-- Modelled from the spec: the `Vehicle.is_electric` property of
`tlvflow.domain.vehicles` (that module is imported by `users.py`,
`stations.py` and `loaders.py` but its file is not under `src/`).  Per the
spec data model, the electric vehicles are exactly `EBike` and `Scooter`. -/
def Vehicle.is_electric (v : Vehicle) : Bool :=
  match v.kind with
  | .bike _ => false
  | .ebike _ => true
  | .scooter _ => true

/-- Battery level of an electric vehicle (`EBike`/`Scooter`), if any. -/
def Vehicle.battery (v : Vehicle) : Option Int :=
  match v.kind with
  | .bike _ => none
  | .ebike b => some b
  | .scooter b => some b

/-- Python `str.strip()` with no argument: remove leading and trailing
whitespace.  Implemented over the character list so that it evaluates by
kernel reduction (ASCII whitespace; the exotic Unicode space characters
Python also strips do not occur in this development). -/
def pyStrip (s : String) : String :=
  ⟨((s.data.dropWhile Char.isWhitespace).reverse.dropWhile
      Char.isWhitespace).reverse⟩

/-- Python `str.lower()`, for the ASCII strings this code base compares. -/
def pyLower (s : String) : String :=
  ⟨s.data.map Char.toLower⟩

/-- A docking station, from `Station.__init__` in
`tlvflow/domain/stations.py`.  The `name` field holds the already-trimmed
name, as stored by the validated constructor. -/
structure Station where
  station_id : Int
  name : String
  latitude : Rat
  longitude : Rat
  capacity : Int
  vehicles : List Vehicle
deriving DecidableEq, Repr

/-- `Station.__init__` (`tlvflow/domain/stations.py`): validates
`station_id >= 0`, non-empty trimmed `name`, `latitude` in [-90, 90],
`longitude` in [-180, 180], `capacity > 0`, then copies the optional
vehicle list (falsy, i.e. `None` or empty, becomes `[]`) and raises when
the initial vehicles exceed the capacity. -/
def Station.init (station_id : Int) (name : String) (latitude longitude : Rat)
    (capacity : Int) (vehicles : Option (List Vehicle)) :
    Except String Station :=
  if station_id < 0 then .error ("station_id must be a non-negative integer")
  else if pyStrip name = "" then .error ("name must be a non-empty string")
  else if ¬ (-90 ≤ latitude ∧ latitude ≤ 90) then
    .error ("latitude must be between -90 and 90")
  else if ¬ (-180 ≤ longitude ∧ longitude ≤ 180) then
    .error ("longitude must be between -180 and 180")
  else if capacity ≤ 0 then .error ("capacity must be a positive integer")
  else if capacity < ((vehicles.getD []).length : Int) then
    .error ("initial vehicles cannot exceed capacity")
  else
    .ok { station_id := station_id
          name := pyStrip name
          latitude := latitude
          longitude := longitude
          capacity := capacity
          vehicles := vehicles.getD [] }

/-- `Station.available_slots`: `capacity - len(vehicles)`, recomputed. -/
def Station.available_slots (st : Station) : Int :=
  st.capacity - st.vehicles.length

/-- `Station.is_full`: `available_slots == 0`. -/
def Station.is_full (st : Station) : Bool :=
  st.available_slots == 0

/-- `Station.is_empty`: `len(vehicles) == 0`. -/
def Station.is_empty (st : Station) : Bool :=
  st.vehicles.isEmpty

/-- `Station.dock` (`tlvflow/domain/stations.py`): raises when the station
is full, otherwise appends the vehicle. -/
def Station.dock (st : Station) (v : Vehicle) : Except String Station :=
  if st.is_full then .error ("station is full")
  else .ok { st with vehicles := st.vehicles ++ [v] }

/-- Remove the first occurrence of `v`, as Python `list.remove` does;
`none` models the `ValueError` raised when `v` has no occurrence. -/
def removeFirst : List Vehicle → Vehicle → Option (List Vehicle)
  | [], _ => none
  | x :: xs, v =>
    if x = v then some xs
    else
      match removeFirst xs v with
      | some l => some (x :: l)
      | none => none

/-- `Station.undock` (`tlvflow/domain/stations.py`): `list.remove`, with the
`ValueError` re-raised as `"vehicle is not in this station"`. -/
def Station.undock (st : Station) (v : Vehicle) : Except String Station :=
  match removeFirst st.vehicles v with
  | some l => .ok { st with vehicles := l }
  | none => .error ("vehicle is not in this station")

/-- Stations reachable through the program's operations: the validated
constructor followed by any sequence of successful `dock` and `undock`
calls. -/
inductive Station.Reachable : Station → Prop
  | init (station_id : Int) (name : String) (latitude longitude : Rat)
      (capacity : Int) (vehicles : Option (List Vehicle)) (st : Station) :
      Station.init station_id name latitude longitude capacity vehicles
        = .ok st →
      Station.Reachable st
  | dock (st : Station) (v : Vehicle) (st' : Station) :
      Station.Reachable st → st.dock v = .ok st' → Station.Reachable st'
  | undock (st : Station) (v : Vehicle) (st' : Station) :
      Station.Reachable st → st.undock v = .ok st' → Station.Reachable st'

/-- A user's ride-tracking state, from `User.__init__` in
`tlvflow/domain/users.py` (`_ride_history = []`, `_current_ride = None`).
`start_ride`/`end_ride` compare ride objects by Python object identity
(`ride is not self._current_ride`), so each ride object is modelled by an
identity token (a natural number); distinct objects carry distinct
tokens. -/
structure UserRides where
  ride_history : List Nat
  current_ride : Option Nat
deriving DecidableEq, Repr

/-- `User.start_ride` (`tlvflow/domain/users.py`): raises when a ride is
already active, otherwise records the given ride as current. -/
def UserRides.start_ride (u : UserRides) (r : Nat) : Except String UserRides :=
  match u.current_ride with
  | some _ => .error ("User already has an active ride")
  | none => .ok { u with current_ride := some r }

/-- `User.end_ride` (`tlvflow/domain/users.py`): raises when no ride is
active or when the argument is not the identical current ride; otherwise
appends the ride to the history and clears the current ride. -/
def UserRides.end_ride (u : UserRides) (r : Nat) : Except String UserRides :=
  match u.current_ride with
  | none => .error ("User has no active ride to end")
  | some c =>
    if r ≠ c then .error ("Ride mismatch: cannot end a different ride")
    else .ok { ride_history := u.ride_history ++ [r], current_ride := none }

/-- The squared flat-plane distance used by `find_nearest_station`
(`tlvflow/services/stations_service.py`, inner `distance_sq`):
`dx*dx + dy*dy` with `dx = station.longitude - lon`,
`dy = station.latitude - lat`. -/
def distance_sq (lon lat : Rat) (st : Station) : Rat :=
  (st.longitude - lon) * (st.longitude - lon)
    + (st.latitude - lat) * (st.latitude - lat)

/-- One step of Python's `min(stations, key=distance_sq)`: keep the current
best unless the candidate's key is strictly smaller, so the first minimum
encountered wins ties. -/
def nearerOf (lon lat : Rat) (best x : Station) : Station :=
  if distance_sq lon lat x < distance_sq lon lat best then x else best

/-- `find_nearest_station` (`tlvflow/services/stations_service.py`): `None`
on an empty collection (`repo.get_all()` yields the stations in insertion
order), otherwise `min(stations, key=distance_sq)`. -/
def find_nearest_station : List Station → Rat → Rat → Option Station
  | [], _, _ => none
  | s :: rest, lon, lat => some (rest.foldl (nearerOf lon lat) s)

/-- Station 1 of the spec's concrete nearest-station example:
(lon 34.0, lat 32.0). -/
def demoStation1 : Station :=
  { station_id := 1, name := "A", latitude := 32, longitude := 34,
    capacity := 10, vehicles := [] }

/-- The two-station collection of the spec's concrete nearest-station
example: station 1 at (lon 34.0, lat 32.0), station 2 at (lon 10.0,
lat 50.0). -/
def demoStations : List Station :=
  [ demoStation1,
    { station_id := 2, name := "B", latitude := 50, longitude := 10,
      capacity := 10, vehicles := [] } ]

/-- A Python `datetime` value: `wall` is the naive wall-clock reading (in
abstract ticks) and `tz` its `utcoffset` in the same ticks, with `none`
for a naive (timezone-unaware) value.  An aware value `⟨w, some o⟩`
denotes the absolute instant `w - o`; `datetime.now(UTC)` and
`replace(tzinfo=UTC)` produce offset `some 0`. -/
structure PyDateTime where
  wall : Int
  tz : Option Int
deriving DecidableEq, Repr

/-- `d.replace(tzinfo=UTC)`: keep the wall-clock reading, set offset 0. -/
def PyDateTime.replaceUTC (d : PyDateTime) : PyDateTime :=
  { d with tz := some 0 }

/-- The `if x.tzinfo is None: x = x.replace(tzinfo=UTC)` normalization used
by `ProUser.validate_license` and `Ride.end`. -/
def pyNormUTC (d : PyDateTime) : PyDateTime :=
  if d.tz = none then d.replaceUTC else d

/-- The absolute instant of a datetime once naive values are read as UTC:
`wall - utcoffset`, with offset 0 for naive values. -/
def PyDateTime.utcAbs (d : PyDateTime) : Int :=
  d.wall - d.tz.getD 0

/-- Python `<` on datetimes: two naive values compare by wall clock, two
aware values compare by absolute instant, and comparing naive with aware
raises `TypeError`. -/
def pyLtDT (d1 d2 : PyDateTime) : Except String Bool :=
  match d1.tz, d2.tz with
  | none, none => .ok (decide (d1.wall < d2.wall))
  | some o1, some o2 => .ok (decide (d1.wall - o1 < d2.wall - o2))
  | _, _ =>
    .error ("TypeError: cannot compare offset-naive and offset-aware datetimes")

/-- `ProUser.validate_license` (`tlvflow/domain/users.py`): `now` is the
`at` argument when given (datetimes are always truthy), else the current
UTC clock, passed here explicitly as `clockNow`; both `now` and the stored
expiry are normalized (naive read as UTC) and then compared as aware
datetimes, i.e. by absolute instant, returning `expiry >= now`. -/
def validate_license (license_expiry : PyDateTime) (at? : Option PyDateTime)
    (clockNow : PyDateTime) : Bool :=
  let now := pyNormUTC (at?.getD clockNow)
  let exp := pyNormUTC license_expiry
  decide (now.utcAbs ≤ exp.utcAbs)

/-- `User.can_rent` (`tlvflow/domain/users.py`, the Amateur default):
`not vehicle.is_electric`. -/
def can_rent_amateur (v : Vehicle) : Bool :=
  !v.is_electric

/-- `ProUser.can_rent` (`tlvflow/domain/users.py`): ignores the vehicle and
returns `validate_license()` at the current clock. -/
def can_rent_pro (license_expiry : PyDateTime) (clockNow : PyDateTime)
    (_v : Vehicle) : Bool :=
  validate_license license_expiry none clockNow

/-- A ride, from `Ride.__init__` in `tlvflow/domain/models.py`: identifiers
are stored stripped, `end_time = none` means in progress, and `status` is
derived from the presence of `end_time` at construction and updated by
`end`. -/
structure RideState where
  ride_id : String
  user_id : String
  vehicle_id : String
  start_time : PyDateTime
  end_time : Option PyDateTime
  start_latitude : Rat
  start_longitude : Rat
  end_latitude : Rat
  end_longitude : Rat
  distance : Rat
  fee : Rat
  status : RideStatus
deriving DecidableEq, Repr

/-- `Ride.end` (`tlvflow/domain/models.py`): raises when the ride already
has an end time; otherwise takes the supplied time (or the current UTC
clock, passed explicitly as `clockNow`), normalizes a naive value to UTC,
raises when it is before `start_time` (a Python `<` comparison, which
itself raises `TypeError` when `start_time` is naive, since the normalized
end time is always aware), and on success records the end time and sets
the status to completed. -/
def RideState.endRide (r : RideState) (at? : Option PyDateTime)
    (clockNow : PyDateTime) : Except String RideState :=
  match r.end_time with
  | some _ => .error ("Ride is already ended")
  | none =>
    let now := pyNormUTC (at?.getD clockNow)
    match pyLtDT now r.start_time with
    | .error e => .error e
    | .ok true => .error ("end_time cannot be before start_time")
    | .ok false => .ok { r with end_time := some now, status := .completed }

/-- `Ride.is_active` (`tlvflow/domain/models.py`): `end_time is None`. -/
def RideState.is_active (r : RideState) : Bool :=
  r.end_time.isNone

/-- An in-progress ride whose `start_time` is a naive datetime (wall 0). -/
def rideNaiveStart : RideState :=
  { ride_id := "r1", user_id := "u1", vehicle_id := "v1",
    start_time := ⟨0, none⟩, end_time := none,
    start_latitude := 0, start_longitude := 0, end_latitude := 0,
    end_longitude := 0, distance := 0, fee := 0,
    status := .in_progress }

/-- An in-progress ride whose `start_time` is aware UTC (instant 0). -/
def rideAwareStart : RideState :=
  { ride_id := "r2", user_id := "u1", vehicle_id := "v1",
    start_time := ⟨0, some 0⟩, end_time := none,
    start_latitude := 0, start_longitude := 0, end_latitude := 0,
    end_longitude := 0, distance := 0, fee := 0,
    status := .in_progress }

/-- Python exceptions relevant to the vehicle CSV loader
(`tlvflow/persistence/loaders.py`): `ValueError` (with `KeyError`) is
caught by the per-row `except` handler and makes the row be skipped;
`AttributeError` is not caught and aborts the whole load. -/
inductive PyErr where
  | valueError (msg : String)
  | attributeError (msg : String)
deriving DecidableEq, Repr

/-- A parsed CSV file: the header row and the data rows as cell lists.
`load_vehicles_from_csv` takes an `Option CsvFile`; `none` models a
missing file (`path.exists()` false). -/
structure CsvFile where
  header : List String
  rows : List (List String)
deriving DecidableEq, Repr

/-- The key/value pairs `csv.DictReader` builds for one data row: cells
are paired with header names in order, and header names beyond the row's
length are paired with `restval = None`, modelled as the inner `none`. -/
def rowPairs : List String → List String → List (String × Option String)
  | [], _ => []
  | h :: hs, [] => (h, none) :: rowPairs hs []
  | h :: hs, c :: cs => (h, some c) :: rowPairs hs cs

/-- Lookup in the row dict built by `dict(zip(fieldnames, row))` plus the
`restval` padding loop: later duplicate header names overwrite earlier
ones, so the last binding wins.  The outer `none` means the key is absent
(`row.get` then returns its default); the inner `Option` is the stored
value, `none` for padded cells. -/
def lookupLast (ps : List (String × Option String)) (k : String) :
    Option (Option String) :=
  ps.foldl (fun acc p => if p.1 = k then some p.2 else acc) none

/-- `row.get(key, default)` on a `csv.DictReader` row. -/
def rowGet (header cells : List String) (key dflt : String) : Option String :=
  (lookupLast (rowPairs header cells) key).getD (some dflt)

/-- Python `value.strip()` where `value` may be `None`: raises
`AttributeError` when it is. -/
def pyStripOpt (v : Option String) : Except PyErr String :=
  match v with
  | none =>
    .error (.attributeError ("NoneType object has no attribute strip"))
  | some s => .ok (pyStrip s)

/-- Digit run of Python `int()`: decimal digits, with single underscores
allowed between digits (not leading, trailing or doubled). -/
def pyDigitsCore : List Char → Nat → Option Nat
  | [], acc => some acc
  | c :: cs, acc =>
    if c.isDigit then pyDigitsCore cs (acc * 10 + (c.toNat - 48))
    else if c = '_' then
      match cs with
      | d :: ds =>
        if d.isDigit then pyDigitsCore ds (acc * 10 + (d.toNat - 48))
        else none
      | [] => none
    else none

/-- Nonempty digit run for Python `int()`. -/
def pyDigits : List Char → Option Nat
  | [] => none
  | c :: cs => if c.isDigit then pyDigitsCore cs (c.toNat - 48) else none

/-- Python `int(str)`: strip whitespace, then an optional sign and a
decimal digit run; `none` models the `ValueError` on anything else. -/
def pyIntOfChars (cs : List Char) : Option Int :=
  let t := ((cs.dropWhile Char.isWhitespace).reverse.dropWhile
    Char.isWhitespace).reverse
  match t with
  | '+' :: ds => (pyDigits ds).map Int.ofNat
  | '-' :: ds => (pyDigits ds).map (fun n => -(n : Int))
  | ds => (pyDigits ds).map Int.ofNat

/-- Python `int(str)` over `String`. -/
def pyIntOfString (s : String) : Option Int :=
  pyIntOfChars s.data

/-- `_parse_int` (`tlvflow/persistence/loaders.py`): `value.strip()`
(`AttributeError` on `None`), the default on an empty string, else
`int(stripped)` (`ValueError` on failure). -/
def parse_int (v : Option String) (dflt : Int) : Except PyErr Int := do
  let s ← pyStripOpt v
  if s = "" then pure dflt
  else
    match pyIntOfString s with
    | some n => pure n
    | none => .error (.valueError ("invalid literal for int"))

/-- `_parse_bool` (`tlvflow/persistence/loaders.py`):
`value.strip().lower() in ("true", "1", "yes")`. -/
def parse_bool (v : Option String) : Except PyErr Bool := do
  let s ← pyStripOpt v
  pure (pyLower s == "true" || pyLower s == "1" || pyLower s == "yes")

/-- `_parse_status` (`tlvflow/persistence/loaders.py`): strip and
lower-case, accept exactly the four `VehicleStatus` values, raise
`ValueError` otherwise. -/
def parse_status (s : String) : Except PyErr VehicleStatus :=
  match pyLower (pyStrip s) with
  | "available" => .ok .available
  | "in_use" => .ok .in_use
  | "awaiting_report_review" => .ok .awaiting_report_review
  | "degraded" => .ok .degraded
  | _ => .error (.valueError ("Invalid status"))

/-- `TYPE_MAP.get(raw_type, raw_type)` with
`TYPE_MAP = bicycle/electric_bicycle/scooter -> bike/ebike/scooter`. -/
def type_map (raw : String) : String :=
  if raw = "bicycle" then "bike"
  else if raw = "electric_bicycle" then "ebike"
  else if raw = "scooter" then "scooter"
  else raw

/-- The two loader assignments run on every successfully built vehicle:
`vehicle.ride_count = rides_since` and
`vehicle._last_maintenance_ride_count = 0`. -/
def finalizeLoadedVehicle (base : Vehicle) (rides : Int) : Vehicle :=
  { base with ride_count := rides, last_maintenance_ride_count := 0 }

/-- The body of the per-row `try` block of `load_vehicles_from_csv`
(`tlvflow/persistence/loaders.py`), in source order: read and strip
`vehicle_id`, `frame_number` (defaulting to `FRAME-` + id when empty),
`vehicle_type` (lower-cased and mapped), `status` (defaulting to
`available`), parse `rides_since_last_treated`; skip (`ok none`) on a
missing id or an invalid type; parse the status; then build the vehicle
by type, clamping `battery_level` to [0, 100] for ebike/scooter, and
apply the two loader assignments. -/
def processVehicleRow (header cells : List String) :
    Except PyErr (Option Vehicle) := do
  let vehicle_id ← pyStripOpt (rowGet header cells ("vehicle_id") (""))
  let frameRaw ← pyStripOpt (rowGet header cells ("frame_number") (""))
  let frame_number := if frameRaw = "" then "FRAME-" ++ vehicle_id
    else frameRaw
  let rawType0 ← pyStripOpt (rowGet header cells ("vehicle_type") (""))
  let vehicle_type := type_map (pyLower rawType0)
  let statusRaw ← pyStripOpt (rowGet header cells ("status") ("available"))
  let status_str := if statusRaw = "" then "available" else statusRaw
  let rides_since ←
    parse_int (rowGet header cells ("rides_since_last_treated") ("0")) 0
  if vehicle_id = "" then pure none
  else if ¬ (vehicle_type = "bike" ∨ vehicle_type = "ebike"
      ∨ vehicle_type = "scooter") then pure none
  else do
    let status ← parse_status status_str
    if vehicle_type = "bike" then do
      let has_child_seat ←
        parse_bool (rowGet header cells ("has_child_seat") ("false"))
      pure (some (finalizeLoadedVehicle
        (Bike.init vehicle_id frame_number has_child_seat status)
        rides_since))
    else if vehicle_type = "ebike" then do
      let battery ←
        parse_int (rowGet header cells ("battery_level") ("100")) 100
      match EBike.init vehicle_id frame_number (max 0 (min 100 battery))
          status with
      | .ok b => pure (some (finalizeLoadedVehicle b rides_since))
      | .error m => .error (.valueError m)
    else do
      let battery ←
        parse_int (rowGet header cells ("battery_level") ("100")) 100
      match Scooter.init vehicle_id frame_number (max 0 (min 100 battery))
          status with
      | .ok b => pure (some (finalizeLoadedVehicle b rides_since))
      | .error m => .error (.valueError m)

/-- The row loop of `load_vehicles_from_csv`: `csv.DictReader` skips blank
rows; a row that parses to a vehicle is appended; `continue` branches and
rows raising `ValueError`/`KeyError` are skipped; an uncaught
`AttributeError` aborts the whole load. -/
def loadVehicleRows (header : List String) :
    List (List String) → Except String (List Vehicle)
  | [] => .ok []
  | cells :: rest =>
    if cells = [] then loadVehicleRows header rest
    else
      match processVehicleRow header cells with
      | .ok (some v) => (loadVehicleRows header rest).map (v :: ·)
      | .ok none => loadVehicleRows header rest
      | .error (.valueError _) => loadVehicleRows header rest
      | .error (.attributeError m) => .error ("AttributeError: " ++ m)

/-- `load_vehicles_from_csv` (`tlvflow/persistence/loaders.py`): a missing
file yields `[]` without raising; an absent header
(`if not reader.fieldnames`) yields `[]`; otherwise the row loop runs. -/
def load_vehicles_from_csv (file : Option CsvFile) :
    Except String (List Vehicle) :=
  match file with
  | none => .ok []
  | some f =>
    if f.header = [] then .ok []
    else loadVehicleRows f.header f.rows

/-- The invariant of claim C8. -/
def maintenance_invariant (v : Vehicle) : Prop :=
  v.last_maintenance_ride_count ≤ v.ride_count

/-- The six-column vehicle CSV header used by the loader examples. -/
def vehiclesHeader : List String :=
  ["vehicle_id", "station_id", "vehicle_type", "status",
   "rides_since_last_treated", "last_treated_date"]

/-- A CSV whose one data row carries a negative
`rides_since_last_treated`. -/
def negRidesCsv : CsvFile :=
  { header := vehiclesHeader
    rows := [["v1", "1", "bicycle", "available", "-5", "2026-01-01"]] }

/-- A valid six-column row and a physically short row (two cells). -/
def shortRowCsv : CsvFile :=
  { header := vehiclesHeader
    rows := [["v1", "1", "bicycle", "available", "0", "2026-01-01"],
             ["v2", "1"]] }

/-- The urlsafe base64 alphabet character for a sextet
(`base64.urlsafe_b64encode`): `A`-`Z`, `a`-`z`, `0`-`9`, `-`, `_`. -/
def b64Char (n : Nat) : Char :=
  if n < 26 then Char.ofNat (65 + n)
  else if n < 52 then Char.ofNat (97 + (n - 26))
  else if n < 62 then Char.ofNat (48 + (n - 52))
  else if n = 62 then '-' else '_'

/-- The sextet stream of base64 encoding: three bytes yield four sextets;
a final byte yields two and a final pair three (their low bits
zero-padded). -/
def b64Sextets : List Nat → List Nat
  | [] => []
  | [b1] => [b1 / 4, b1 % 4 * 16]
  | [b1, b2] => [b1 / 4, b1 % 4 * 16 + b2 / 16, b2 % 16 * 4]
  | b1 :: b2 :: b3 :: rest =>
    b1 / 4 :: (b1 % 4 * 16 + b2 / 16) :: (b2 % 16 * 4 + b3 / 64)
      :: b3 % 64 :: b64Sextets rest

/-- `base64.urlsafe_b64encode(..)` followed by `.rstrip("=")`, as
`_hash_password` stores salt and derived key: the data characters without
the padding (the data characters are never `=`, so stripping trailing `=`
removes exactly the padding). -/
def b64EncodeNoPad (bs : List Nat) : List Char :=
  (b64Sextets bs).map b64Char

/-- The local `_pad` of `_verify_password`:
`s + "=" * (-len(s) % 4)`. -/
def padEq (cs : List Char) : List Char :=
  cs ++ List.replicate ((4 - cs.length % 4) % 4) '='

/-- The character translation `urlsafe_b64decode` applies before standard
decoding: `-` to `+` and `_` to `/`. -/
def b64Translate (c : Char) : Char :=
  if c = '-' then '+' else if c = '_' then '/' else c

/-- The value of a standard base64 alphabet character, `none` for
characters outside the alphabet. -/
def b64StdVal (c : Char) : Option Nat :=
  if 'A' ≤ c ∧ c ≤ 'Z' then some (c.toNat - 65)
  else if 'a' ≤ c ∧ c ≤ 'z' then some (c.toNat - 97 + 26)
  else if '0' ≤ c ∧ c ≤ '9' then some (c.toNat - 48 + 52)
  else if c = '+' then some 62
  else if c = '/' then some 63
  else none

/-- Byte reconstruction from the sextet stream: four sextets yield three
bytes, a final pair one byte and a final triple two bytes. -/
def b64DecodeChunks : List Nat → List Nat
  | v1 :: v2 :: v3 :: v4 :: rest =>
    (v1 * 4 + v2 / 16) :: (v2 % 16 * 16 + v3 / 4) :: (v3 % 4 * 64 + v4)
      :: b64DecodeChunks rest
  | [v1, v2] => [v1 * 4 + v2 / 16]
  | [v1, v2, v3] => [v1 * 4 + v2 / 16, v2 % 16 * 16 + v3 / 4]
  | _ => []

/-- The tail of base64 decoding, on the characters kept after discarding
those outside the alphabet: read data up to the first `=`; a data count
of 1 mod 4 raises (`Invalid base64-encoded string`), a 2-or-3 mod 4 count
with no padding present raises (`Incorrect padding`); otherwise decode
the data characters' values. -/
def b64DecodeKept (kept : List Char) : Except String (List Nat) :=
  if (kept.takeWhile (fun c => c != '=')).length % 4 = 1 then
    .error ("binascii.Error: Invalid base64-encoded string")
  else if (kept.takeWhile (fun c => c != '=')).length % 4 ≠ 0
      ∧ (kept.takeWhile (fun c => c != '=')).length = kept.length then
    .error ("binascii.Error: Incorrect padding")
  else .ok (b64DecodeChunks ((kept.takeWhile (fun c => c != '=')).map
    (fun c => (b64StdVal c).getD 0)))

/-- `base64.urlsafe_b64decode` in CPython's non-strict mode: translate the
urlsafe characters, discard characters outside the alphabet, then
`b64DecodeKept`. -/
def b64Decode (cs : List Char) : Except String (List Nat) :=
  b64DecodeKept ((cs.map b64Translate).filter
    (fun c => (b64StdVal c).isSome || c == '='))

/-- Python `str.split(sep, maxsplit)` for the separator `$`: split at the
first `maxsplit` occurrences, the remainder staying in the last field. -/
def splitDollar (k : Nat) (cs : List Char) : List (List Char) :=
  match k with
  | 0 => [cs]
  | k + 1 =>
    match cs.dropWhile (fun c => c != '$') with
    | [] => [cs.takeWhile (fun c => c != '$')]
    | _ :: rest => cs.takeWhile (fun c => c != '$') :: splitDollar k rest

/-- `User._PWD_ALGO` (`tlvflow/domain/users.py`). -/
def PWD_ALGO : List Char :=
  "pbkdf2_sha256".data

/-- `User._PWD_ITERATIONS` (`tlvflow/domain/users.py`). -/
def PWD_ITERATIONS : Nat := 210000

/-- `User._hash_password` (`tlvflow/domain/users.py`), parametrized over
`hashlib.pbkdf2_hmac` — an external, deterministic library function taking
the password, the salt bytes, the iteration count and the derived-key
length — and over the 16 random salt bytes of `secrets.token_bytes`,
passed explicitly.  Raises unless the password has at least 8 characters;
otherwise stores the four `$`-joined fields: algorithm tag, iteration
count, base64url salt and base64url derived key, both without padding. -/
def hash_password (kdf : String → List Nat → Int → Nat → List Nat)
    (salt : List Nat) (password : String) : Except String (List Char) :=
  if password.length < 8 then
    .error ("password must be a string with at least 8 characters")
  else
    .ok (PWD_ALGO ++ '$' :: Nat.toDigits 10 PWD_ITERATIONS
      ++ '$' :: b64EncodeNoPad salt
      ++ '$' :: b64EncodeNoPad (kdf password salt (PWD_ITERATIONS : Int) 32))

/-- `User._verify_password` (`tlvflow/domain/users.py`): split the stored
value on `$` at most 3 times; fewer than four fields (the unpacking
`ValueError`), a wrong algorithm tag or a non-integer iteration count
yield `false`; a failing base64 decode of salt or key yields `false`;
otherwise recompute the derived key with the stored salt, iteration count
and the decoded key's length, and compare (`hmac.compare_digest` on equal
-length byte strings is equality).  Total by construction: every failure
of the anticipated kinds returns `false` rather than propagating. -/
def verify_password (kdf : String → List Nat → Int → Nat → List Nat)
    (password : String) (stored : List Char) : Bool :=
  match splitDollar 3 stored with
  | [algo, iters_s, salt_b64, dk_b64] =>
    if algo ≠ PWD_ALGO then false
    else
      match pyIntOfChars iters_s with
      | none => false
      | some iters =>
        match b64Decode (padEq salt_b64), b64Decode (padEq dk_b64) with
        | .ok salt, .ok expected =>
          decide (kdf password salt iters expected.length = expected)
        | _, _ => false
  | _ => false

/-- An explicit `kdf` for instantiating `c5_password_verify`: `dklen`
copies of a byte derived from the password length (so different-length
passwords give different keys). -/
def demoKdf : String → List Nat → Int → Nat → List Nat :=
  fun pw _ _ dklen => List.replicate dklen (min 255 pw.length)

/-- Sixteen zero salt bytes. -/
def demoSalt : List Nat :=
  List.replicate 16 0

/-- The stored hash of `"password"` under `demoKdf` and `demoSalt`. -/
def demoStored : List Char :=
  (hash_password demoKdf demoSalt ("password")).toOption.getD []

/-- C1: for every vehicle and every optional report list,
`check_maintenance_needed` returns true if and only if
`ride_count - last_maintenance_ride_count >= 10`, or some report in the
list carries this vehicle's `vehicle_id`, or (for `EBike` and `Scooter`
only) `battery_level < 20`; in all other cases it returns false. -/
theorem c1_check_maintenance_needed_iff (v : Vehicle)
    (reports : Option (List VehicleReport)) :
    v.check_maintenance_needed reports = true ↔
      10 ≤ v.ride_count - v.last_maintenance_ride_count
      ∨ (∃ r ∈ reports.getD [], r.vehicle_id = some v.vehicle_id)
      ∨ (∃ b, (v.kind = .ebike b ∨ v.kind = .scooter b) ∧ b < 20) := by
  have hmatch : ∀ r : VehicleReport,
      reportMatches v r = true ↔ r.vehicle_id = some v.vehicle_id := by
    intro r
    cases hr : r.vehicle_id with
    | none => simp [reportMatches, hr]
    | some id => simp [reportMatches, hr]
  cases hk : v.kind with
  | bike hcs =>
      simp only [Vehicle.check_maintenance_needed, hk, Bool.or_eq_true,
        decide_eq_true_eq, List.any_eq_true]
      constructor
      · rintro (h | ⟨r, hr, hm⟩)
        · exact Or.inl h
        · exact Or.inr (Or.inl ⟨r, hr, (hmatch r).mp hm⟩)
      · rintro (h | ⟨r, hr, hm⟩ | ⟨b, hb, _⟩)
        · exact Or.inl h
        · exact Or.inr ⟨r, hr, (hmatch r).mpr hm⟩
        · rcases hb with hb | hb <;> simp [hk] at hb
  | ebike b =>
      simp only [Vehicle.check_maintenance_needed, hk, Bool.or_eq_true,
        decide_eq_true_eq, List.any_eq_true]
      constructor
      · rintro ((h | ⟨r, hr, hm⟩) | h)
        · exact Or.inl h
        · exact Or.inr (Or.inl ⟨r, hr, (hmatch r).mp hm⟩)
        · exact Or.inr (Or.inr ⟨b, Or.inl rfl, h⟩)
      · rintro (h | ⟨r, hr, hm⟩ | ⟨b', hb, hlt⟩)
        · exact Or.inl (Or.inl h)
        · exact Or.inl (Or.inr ⟨r, hr, (hmatch r).mpr hm⟩)
        · rcases hb with hb | hb
          · injection hb with hbb
            subst hbb
            exact Or.inr hlt
          · simp at hb
  | scooter b =>
      simp only [Vehicle.check_maintenance_needed, hk, Bool.or_eq_true,
        decide_eq_true_eq, List.any_eq_true]
      constructor
      · rintro ((h | ⟨r, hr, hm⟩) | h)
        · exact Or.inl h
        · exact Or.inr (Or.inl ⟨r, hr, (hmatch r).mp hm⟩)
        · exact Or.inr (Or.inr ⟨b, Or.inr rfl, h⟩)
      · rintro (h | ⟨r, hr, hm⟩ | ⟨b', hb, hlt⟩)
        · exact Or.inl (Or.inl h)
        · exact Or.inl (Or.inr ⟨r, hr, (hmatch r).mpr hm⟩)
        · rcases hb with hb | hb
          · simp at hb
          · injection hb with hbb
            subst hbb
            exact Or.inr hlt

/-- C7: `complete_maintenance` sets `last_maintenance_ride_count` to the
current `ride_count` and changes nothing else (in particular the battery
level, stored in `kind`, is untouched; reports live outside the vehicle);
it is idempotent: two calls in a row give the same vehicle state, hence
the same subsequent maintenance-due result, as one call. -/
theorem c7_complete_maintenance_idempotent (v : Vehicle)
    (reports : Option (List VehicleReport)) :
    (v.complete_maintenance.last_maintenance_ride_count = v.ride_count
      ∧ v.complete_maintenance.ride_count = v.ride_count
      ∧ v.complete_maintenance.vehicle_id = v.vehicle_id
      ∧ v.complete_maintenance.frame_number = v.frame_number
      ∧ v.complete_maintenance.status = v.status
      ∧ v.complete_maintenance.has_helmet = v.has_helmet
      ∧ v.complete_maintenance.kind = v.kind)
    ∧ v.complete_maintenance.complete_maintenance = v.complete_maintenance
    ∧ v.complete_maintenance.complete_maintenance.check_maintenance_needed
        reports
      = v.complete_maintenance.check_maintenance_needed reports := by
  refine ⟨⟨rfl, rfl, rfl, rfl, rfl, rfl, rfl⟩, rfl, rfl⟩

theorem station_init_inv (station_id : Int) (name : String)
    (latitude longitude : Rat) (capacity : Int)
    (vehicles : Option (List Vehicle)) (st : Station)
    (h : Station.init station_id name latitude longitude capacity vehicles
      = .ok st) :
    (st.vehicles.length : Int) ≤ st.capacity := by
  unfold Station.init at h
  split at h
  · exact absurd h (by simp)
  split at h
  · exact absurd h (by simp)
  split at h
  · exact absurd h (by simp)
  split at h
  · exact absurd h (by simp)
  split at h
  · exact absurd h (by simp)
  split at h
  · exact absurd h (by simp)
  rename_i hlen
  injection h with h
  subst h
  exact le_of_not_lt hlen

theorem removeFirst_eq_none_iff (l : List Vehicle) (v : Vehicle) :
    removeFirst l v = none ↔ v ∉ l := by
  induction l with
  | nil => simp [removeFirst]
  | cons x xs ih =>
    by_cases hx : x = v
    · subst hx
      simp [removeFirst]
    · rw [removeFirst, if_neg hx]
      cases hrem : removeFirst xs v with
      | none =>
        have hvxs : v ∉ xs := ih.mp hrem
        simp only [List.mem_cons]
        constructor
        · intro _ hor
          rcases hor with rfl | hm
          · exact hx rfl
          · exact hvxs hm
        · intro _
          trivial
      | some l =>
        have hvmem : v ∈ xs := by
          by_contra hnm
          rw [ih.mpr hnm] at hrem
          cases hrem
        constructor
        · intro hcontra
          exact absurd hcontra (by simp)
        · intro hn
          exact absurd (List.mem_cons_of_mem x hvmem) hn

theorem removeFirst_length (l : List Vehicle) (v : Vehicle) :
    ∀ l', removeFirst l v = some l' → l'.length + 1 = l.length := by
  induction l with
  | nil => intro l' h; simp [removeFirst] at h
  | cons x xs ih =>
    intro l' h
    by_cases hx : x = v
    · rw [removeFirst, if_pos hx] at h
      injection h with h
      subst h
      rfl
    · rw [removeFirst, if_neg hx] at h
      cases hrem : removeFirst xs v with
      | none =>
        rw [hrem] at h
        exact absurd h (by simp)
      | some l =>
        rw [hrem] at h
        injection h with h
        subst h
        have := ih l hrem
        simp only [List.length_cons]
        omega

theorem station_reachable_inv (st : Station) (h : Station.Reachable st) :
    (st.vehicles.length : Int) ≤ st.capacity := by
  induction h with
  | init station_id name latitude longitude capacity vehicles st hinit =>
    exact station_init_inv station_id name latitude longitude capacity
      vehicles st hinit
  | dock st v st' _ hdock ih =>
    unfold Station.dock at hdock
    split at hdock
    · exact absurd hdock (by simp)
    · rename_i hfull
      injection hdock with hdock
      subst hdock
      simp only [Station.is_full, Station.available_slots,
        beq_iff_eq] at hfull
      show ((st.vehicles ++ [v]).length : Int) ≤ st.capacity
      simp only [List.length_append, List.length_cons, List.length_nil]
      push_cast
      omega
  | undock st v st' _ hundock ih =>
    unfold Station.undock at hundock
    split at hundock
    · rename_i l hrem
      injection hundock with hundock
      subst hundock
      have hlen := removeFirst_length st.vehicles v l hrem
      show ((l).length : Int) ≤ st.capacity
      omega
    · exact absurd hundock (by simp)

/-- C3: the docked count of a station never exceeds its capacity under any
sequence of constructor, `dock` and `undock` operations; `dock` on a
station whose docked count equals its capacity always fails, and `undock`
of a vehicle not currently docked there always fails (the model's `Except`
failures return no new station, so the docked collection is unchanged, as
the Python methods raise before mutating). -/
theorem c3_station_capacity_invariant (st : Station) (v : Vehicle) :
    (Station.Reachable st → (st.vehicles.length : Int) ≤ st.capacity)
    ∧ ((st.vehicles.length : Int) = st.capacity →
        st.dock v = .error ("station is full"))
    ∧ (v ∉ st.vehicles →
        st.undock v = .error ("vehicle is not in this station")) := by
  refine ⟨station_reachable_inv st, ?_, ?_⟩
  · intro hfull
    unfold Station.dock
    rw [if_pos]
    simp only [Station.is_full, Station.available_slots, beq_iff_eq]
    omega
  · intro hmem
    unfold Station.undock
    rw [(removeFirst_eq_none_iff st.vehicles v).mpr hmem]

/-- Concrete instantiation of `c3_station_capacity_invariant`: a station
built by the constructor satisfies the invariant, a station at capacity
rejects `dock`, and `undock` of an absent vehicle fails. -/
theorem c3_station_capacity_invariant_witness :
    (((⟨1, "Dizengoff", 32, 34, 2, []⟩ : Station).vehicles.length : Int)
        ≤ (⟨1, "Dizengoff", 32, 34, 2, []⟩ : Station).capacity)
    ∧ (⟨2, "Habima", 32, 34, 1,
          [Bike.init ("b1") ("f1") false .available]⟩ : Station).dock
        (Bike.init ("b2") ("f2") false .available)
        = .error ("station is full")
    ∧ (⟨3, "Azrieli", 32, 34, 1, []⟩ : Station).undock
        (Bike.init ("b3") ("f3") false .available)
        = .error ("vehicle is not in this station") := by
  refine ⟨?_, ?_, ?_⟩
  · exact (c3_station_capacity_invariant _
      (Bike.init ("b0") ("f0") false .available)).1
      (Station.Reachable.init 1 ("Dizengoff") 32 34 2 none _ (by rfl))
  · exact (c3_station_capacity_invariant _ _).2.1 (by rfl)
  · exact (c3_station_capacity_invariant _ _).2.2 (by decide)

/-- C4: a second `start_ride` while a ride is active fails with the state
unchanged (the model's failure returns no new state, as the Python method
raises before assigning); `end_ride` fails when no ride is active or when
the argument is not the identical current ride; a successful `end_ride`
appends the ride to the history exactly once (its count rises by one) and
clears the current ride, so a user holds at most one active ride at all
times (the state stores at most one current ride by construction). -/
theorem c4_single_active_ride (u : UserRides) (r c : Nat) :
    (u.current_ride = some c →
      u.start_ride r = .error ("User already has an active ride"))
    ∧ (u.current_ride = none →
      u.end_ride r = .error ("User has no active ride to end"))
    ∧ (u.current_ride = some c → r ≠ c →
      u.end_ride r = .error ("Ride mismatch: cannot end a different ride"))
    ∧ (u.current_ride = some r →
      u.end_ride r = .ok ⟨u.ride_history ++ [r], none⟩
      ∧ (u.end_ride r).map (fun u' => u'.ride_history.count r)
        = .ok (u.ride_history.count r + 1)) := by
  refine ⟨?_, ?_, ?_, ?_⟩
  · intro h
    unfold UserRides.start_ride
    rw [h]
  · intro h
    unfold UserRides.end_ride
    rw [h]
  · intro h hne
    unfold UserRides.end_ride
    rw [h]
    simp [hne]
  · intro h
    unfold UserRides.end_ride
    rw [h]
    simp [Except.map, List.count_append]

/-- Concrete instantiation of `c4_single_active_ride`: with ride 5 active,
a second `start_ride` fails; with no ride active, `end_ride` fails; ending
a non-identical ride fails; ending the identical ride succeeds, appending
it once. -/
theorem c4_single_active_ride_witness :
    ((⟨[], some 5⟩ : UserRides).start_ride 6
      = .error ("User already has an active ride"))
    ∧ ((⟨[3], none⟩ : UserRides).end_ride 3
      = .error ("User has no active ride to end"))
    ∧ ((⟨[], some 5⟩ : UserRides).end_ride 6
      = .error ("Ride mismatch: cannot end a different ride"))
    ∧ ((⟨[3], some 7⟩ : UserRides).end_ride 7 = .ok ⟨[3, 7], none⟩) := by
  refine ⟨?_, ?_, ?_, ?_⟩
  · exact (c4_single_active_ride ⟨[], some 5⟩ 6 5).1 (by rfl)
  · exact (c4_single_active_ride ⟨[3], none⟩ 3 0).2.1 (by rfl)
  · exact (c4_single_active_ride ⟨[], some 5⟩ 6 5).2.2.1 (by rfl) (by decide)
  · exact ((c4_single_active_ride ⟨[3], some 7⟩ 7 7).2.2.2 (by rfl)).1

theorem foldl_nearerOf_spec (lon lat : Rat) :
    ∀ (rest : List Station) (best r : Station),
      rest.foldl (nearerOf lon lat) best = r →
      (r = best ∧ ∀ t ∈ rest, distance_sq lon lat best ≤ distance_sq lon lat t)
      ∨ (∃ l₁ l₂, rest = l₁ ++ r :: l₂
          ∧ distance_sq lon lat r < distance_sq lon lat best
          ∧ (∀ t ∈ l₁, distance_sq lon lat r < distance_sq lon lat t)
          ∧ (∀ t ∈ l₂, distance_sq lon lat r ≤ distance_sq lon lat t)) := by
  intro rest
  induction rest with
  | nil =>
    intro best r h
    exact Or.inl ⟨h.symm, by simp⟩
  | cons x rest ih =>
    intro best r h
    simp only [List.foldl_cons] at h
    by_cases hx : distance_sq lon lat x < distance_sq lon lat best
    · rw [show nearerOf lon lat best x = x from if_pos hx] at h
      rcases ih x r h with ⟨rfl, hall⟩ | ⟨l₁, l₂, hdec, hlt, hl₁, hl₂⟩
      · exact Or.inr ⟨[], rest, by simp, hx, by simp, hall⟩
      · refine Or.inr ⟨x :: l₁, l₂, by simp [hdec], lt_trans hlt hx, ?_, hl₂⟩
        intro t ht
        rcases List.mem_cons.mp ht with rfl | ht
        · exact hlt
        · exact hl₁ t ht
    · rw [show nearerOf lon lat best x = best from if_neg hx] at h
      rcases ih best r h with ⟨hrb, hall⟩ | ⟨l₁, l₂, hdec, hlt, hl₁, hl₂⟩
      · refine Or.inl ⟨hrb, ?_⟩
        intro t ht
        rcases List.mem_cons.mp ht with rfl | ht
        · exact le_of_not_lt hx
        · exact hall t ht
      · refine Or.inr ⟨x :: l₁, l₂, by simp [hdec], hlt, ?_, hl₂⟩
        intro t ht
        rcases List.mem_cons.mp ht with rfl | ht
        · exact lt_of_lt_of_le hlt (le_of_not_lt hx)
        · exact hl₁ t ht

/-- C2: on the empty collection `find_nearest_station` returns `none`; on a
non-empty collection it returns some station, and any returned station `s`
splits the collection as `l₁ ++ s :: l₂` where every station before `s`
has strictly greater squared Euclidean distance and every station after
has greater-or-equal distance — i.e. `s` is the first minimum in iteration
order.  Concretely, over stations 1 (34.0, 32.0) and 2 (10.0, 50.0),
querying at (34.01, 32.01) returns station 1. -/
theorem c2_find_nearest_first_minimum (stations : List Station)
    (lon lat : Rat) (s : Station) :
    (find_nearest_station [] lon lat = none)
    ∧ (stations ≠ [] → (find_nearest_station stations lon lat).isSome)
    ∧ (find_nearest_station stations lon lat = some s →
        ∃ l₁ l₂, stations = l₁ ++ s :: l₂
          ∧ (∀ t ∈ l₁, distance_sq lon lat s < distance_sq lon lat t)
          ∧ (∀ t ∈ l₂, distance_sq lon lat s ≤ distance_sq lon lat t))
    ∧ (find_nearest_station demoStations ((3401 : Rat)/100) ((3201 : Rat)/100)
        |>.map Station.station_id) = some 1 := by
  refine ⟨rfl, ?_, ?_,
    by norm_num [find_nearest_station, demoStations, demoStation1, nearerOf,
      distance_sq]⟩
  · intro hne
    cases stations with
    | nil => exact absurd rfl hne
    | cons s₀ rest => simp [find_nearest_station]
  · intro hfind
    cases stations with
    | nil => exact absurd hfind (by simp [find_nearest_station])
    | cons s₀ rest =>
      simp only [find_nearest_station, Option.some.injEq] at hfind
      rcases foldl_nearerOf_spec lon lat rest s₀ s hfind with
        ⟨rfl, hall⟩ | ⟨l₁, l₂, hdec, hlt, hl₁, hl₂⟩
      · exact ⟨[], rest, by simp, by simp, hall⟩
      · refine ⟨s₀ :: l₁, l₂, by simp [hdec], ?_, hl₂⟩
        intro t ht
        rcases List.mem_cons.mp ht with rfl | ht
        · exact hlt
        · exact hl₁ t ht

/-- Concrete instantiation of `c2_find_nearest_first_minimum`: the
collection of the spec example is non-empty, so a station is returned, and
the returned station admits the first-minimum decomposition. -/
theorem c2_find_nearest_first_minimum_witness :
    (find_nearest_station demoStations ((3401 : Rat)/100)
      ((3201 : Rat)/100)).isSome
    ∧ ∃ l₁ l₂, demoStations = l₁ ++ demoStation1 :: l₂
        ∧ (∀ t ∈ l₁, distance_sq ((3401 : Rat)/100) ((3201 : Rat)/100)
            demoStation1
            < distance_sq ((3401 : Rat)/100) ((3201 : Rat)/100) t)
        ∧ (∀ t ∈ l₂, distance_sq ((3401 : Rat)/100) ((3201 : Rat)/100)
            demoStation1
            ≤ distance_sq ((3401 : Rat)/100) ((3201 : Rat)/100) t) := by
  constructor
  · exact (c2_find_nearest_first_minimum demoStations ((3401 : Rat)/100)
      ((3201 : Rat)/100) demoStation1).2.1 (by simp [demoStations])
  · exact (c2_find_nearest_first_minimum demoStations ((3401 : Rat)/100)
      ((3201 : Rat)/100) demoStation1).2.2.1
      (by norm_num [find_nearest_station, demoStations, demoStation1,
        nearerOf, distance_sq])

theorem utcAbs_pyNormUTC (d : PyDateTime) :
    (pyNormUTC d).utcAbs = d.utcAbs := by
  cases h : d.tz with
  | none => simp [pyNormUTC, PyDateTime.replaceUTC, PyDateTime.utcAbs, h]
  | some o => simp [pyNormUTC, PyDateTime.utcAbs, h]

/-- C6: `can_rent` for an Amateur user is true exactly when the vehicle is
non-electric; for a Pro user it is true for any vehicle exactly when the
license is valid at the current clock, and `validate_license` at time `T`
is true iff `license_expiry >= T` after both sides are normalized to UTC
(naive timestamps on either side read as UTC, i.e. compared through
`utcAbs`). -/
theorem c6_can_rent (v : Vehicle) (expiry clock : PyDateTime)
    (at? : Option PyDateTime) :
    (can_rent_amateur v = true ↔ v.is_electric = false)
    ∧ (can_rent_pro expiry clock v = true ↔ clock.utcAbs ≤ expiry.utcAbs)
    ∧ (validate_license expiry at? clock = true ↔
        (at?.getD clock).utcAbs ≤ expiry.utcAbs) := by
  refine ⟨?_, ?_, ?_⟩
  · cases he : v.is_electric <;> simp [can_rent_amateur, he]
  · simp [can_rent_pro, validate_license, utcAbs_pyNormUTC]
  · simp [validate_license, utcAbs_pyNormUTC]

theorem pyNormUTC_tz_isSome (d : PyDateTime) :
    ∃ o, (pyNormUTC d).tz = some o := by
  cases h : d.tz with
  | none => exact ⟨0, by simp [pyNormUTC, PyDateTime.replaceUTC, h]⟩
  | some o => exact ⟨o, by simp [pyNormUTC, h]⟩

/-- C10 (amended): `Ride.end` fails when the ride already has an end time;
when `start_time` is timezone-aware it fails exactly when the (normalized)
end time is an earlier instant than `start_time`, and otherwise records
the normalized end time, with the status completed and `is_active` false;
but when `start_time` is naive, every `end` attempt fails with a
`TypeError` (the normalized end time is always aware and Python refuses
naive/aware comparison), even when the end time is not earlier than the
start.  Failures return no new state, as the Python method raises before
mutating. -/
theorem c10_ride_end_amended (r : RideState) (at? : Option PyDateTime)
    (clock : PyDateTime) :
    ((∃ e, r.end_time = some e) →
      r.endRide at? clock = .error ("Ride is already ended"))
    ∧ (r.end_time = none → r.start_time.tz = none →
      r.endRide at? clock
        = .error
          ("TypeError: cannot compare offset-naive and offset-aware datetimes"))
    ∧ (∀ o, r.end_time = none → r.start_time.tz = some o →
      ((pyNormUTC (at?.getD clock)).utcAbs < r.start_time.utcAbs →
        r.endRide at? clock = .error ("end_time cannot be before start_time"))
      ∧ (r.start_time.utcAbs ≤ (pyNormUTC (at?.getD clock)).utcAbs →
        r.endRide at? clock
          = .ok { r with end_time := some (pyNormUTC (at?.getD clock)),
                         status := .completed }
        ∧ ({ r with end_time := some (pyNormUTC (at?.getD clock)),
                    status := RideStatus.completed } : RideState).is_active
            = false)) := by
  obtain ⟨onow, hnow⟩ := pyNormUTC_tz_isSome (at?.getD clock)
  refine ⟨?_, ?_, ?_⟩
  · rintro ⟨e, he⟩
    unfold RideState.endRide
    rw [he]
  · intro hnone hstz
    unfold RideState.endRide
    rw [hnone]
    simp only [pyLtDT, hnow, hstz]
  · intro o hnone hstz
    constructor
    · intro hlt
      unfold RideState.endRide
      rw [hnone]
      simp only [pyLtDT, hnow, hstz]
      have hlt' : (pyNormUTC (at?.getD clock)).wall - onow
          < r.start_time.wall - o := by
        simp only [PyDateTime.utcAbs, hnow, hstz, Option.getD_some] at hlt
        omega
      rw [decide_eq_true hlt']
    · intro hge
      refine ⟨?_, rfl⟩
      unfold RideState.endRide
      rw [hnone]
      simp only [pyLtDT, hnow, hstz]
      have hge' : ¬ ((pyNormUTC (at?.getD clock)).wall - onow
          < r.start_time.wall - o) := by
        simp only [PyDateTime.utcAbs, hnow, hstz, Option.getD_some] at hge
        omega
      rw [decide_eq_false hge']

/-- C10 as stated is false on the code: `rideNaiveStart` has no end time
yet, and the supplied aware end time (instant 10) is not earlier than
`start_time` read as UTC (instant 0), so the claim predicts success; but
`Ride.end` raises a `TypeError` (the normalized end time is aware while
`start_time` is naive) instead of recording the end time. -/
theorem c10_ride_end_counterexample :
    rideNaiveStart.end_time = none
    ∧ rideNaiveStart.start_time.utcAbs
        ≤ (pyNormUTC (⟨10, some 0⟩ : PyDateTime)).utcAbs
    ∧ rideNaiveStart.endRide (some ⟨10, some 0⟩) ⟨0, some 0⟩
        = .error
          ("TypeError: cannot compare offset-naive and offset-aware datetimes")
    := by
  refine ⟨rfl, by decide, by rfl⟩

/-- Concrete instantiation of `c10_ride_end_amended`: an already-ended ride
rejects `end`; a naive-start ride raises `TypeError`; an aware-start ride
rejects an earlier end time and accepts a later one, recording it. -/
theorem c10_ride_end_amended_witness :
    ({ rideAwareStart with end_time := some ⟨5, some 0⟩ } : RideState).endRide
        none ⟨9, some 0⟩ = .error ("Ride is already ended")
    ∧ rideNaiveStart.endRide (some ⟨10, some 0⟩) ⟨0, some 0⟩
        = .error
          ("TypeError: cannot compare offset-naive and offset-aware datetimes")
    ∧ rideAwareStart.endRide (some ⟨-5, some 0⟩) ⟨0, some 0⟩
        = .error ("end_time cannot be before start_time")
    ∧ rideAwareStart.endRide (some ⟨10, some 0⟩) ⟨0, some 0⟩
        = .ok { rideAwareStart with end_time := some ⟨10, some 0⟩,
                                    status := .completed } := by
  refine ⟨?_, ?_, ?_, ?_⟩
  · exact (c10_ride_end_amended _ none ⟨9, some 0⟩).1 ⟨⟨5, some 0⟩, rfl⟩
  · exact (c10_ride_end_amended rideNaiveStart (some ⟨10, some 0⟩)
      ⟨0, some 0⟩).2.1 rfl rfl
  · exact ((c10_ride_end_amended rideAwareStart (some ⟨-5, some 0⟩)
      ⟨0, some 0⟩).2.2 0 rfl rfl).1 (by decide)
  · exact (((c10_ride_end_amended rideAwareStart (some ⟨10, some 0⟩)
      ⟨0, some 0⟩).2.2 0 rfl rfl).2 (by decide)).1

theorem processVehicleRow_last_zero (header cells : List String)
    (v : Vehicle) (h : processVehicleRow header cells = .ok (some v)) :
    v.last_maintenance_ride_count = 0 := by
  unfold processVehicleRow at h
  simp only [bind, Except.bind, pure, Except.pure] at h
  repeat' split at h
  all_goals
    first
      | exact Except.noConfusion h
      | (injection h with h
         first
           | exact Option.noConfusion h
           | (injection h with h
              subst h
              rfl))

theorem loadVehicleRows_last_zero (header : List String) :
    ∀ (rows : List (List String)) (vs : List Vehicle),
      loadVehicleRows header rows = .ok vs →
      ∀ v ∈ vs, v.last_maintenance_ride_count = 0 := by
  intro rows
  induction rows with
  | nil =>
    intro vs h v hv
    injection h with h
    subst h
    simp at hv
  | cons cells rest ih =>
    intro vs h v hv
    rw [loadVehicleRows] at h
    split at h
    · exact ih vs h v hv
    · cases hp : processVehicleRow header cells with
      | ok ov =>
        cases ov with
        | some w =>
          rw [hp] at h
          cases hrest : loadVehicleRows header rest with
          | ok l =>
            rw [hrest] at h
            injection h with h
            subst h
            rcases List.mem_cons.mp hv with rfl | hv
            · exact processVehicleRow_last_zero header cells v hp
            · exact ih l hrest v hv
          | error e =>
            rw [hrest] at h
            exact absurd h (by simp [Except.map])
        | none =>
          rw [hp] at h
          exact ih vs h v hv
      | error e =>
        cases e with
        | valueError m =>
          rw [hp] at h
          exact ih vs h v hv
        | attributeError m =>
          rw [hp] at h
          exact absurd h (by simp)

/-- C8 (amended): `ride_count >= last_maintenance_ride_count` holds for
every vehicle built by the constructors and is (re-)established by
`complete_maintenance`; every vehicle produced by the CSV loader has
`last_maintenance_ride_count = 0`, so it satisfies the invariant if and
only if its parsed `rides_since_last_treated` is non-negative — the
loader assigns `ride_count` unvalidated, so a negative CSV value breaks
the invariant (see the counterexample). -/
theorem c8_maintenance_invariant_amended (id fn : String) (hcs : Bool)
    (b : Int) (stt : VehicleStatus) (v w : Vehicle)
    (file : Option CsvFile) (vs : List Vehicle) :
    maintenance_invariant (Bike.init id fn hcs stt)
    ∧ (EBike.init id fn b stt = .ok v → maintenance_invariant v)
    ∧ (Scooter.init id fn b stt = .ok v → maintenance_invariant v)
    ∧ maintenance_invariant w.complete_maintenance
    ∧ (load_vehicles_from_csv file = .ok vs → ∀ u ∈ vs,
        u.last_maintenance_ride_count = 0
        ∧ (0 ≤ u.ride_count → maintenance_invariant u)) := by
  refine ⟨le_refl 0, ?_, ?_, le_refl _, ?_⟩
  · intro h
    unfold EBike.init at h
    split at h
    · injection h with h
      subst h
      exact le_refl 0
    · exact absurd h (by simp)
  · intro h
    unfold Scooter.init at h
    split at h
    · injection h with h
      subst h
      exact le_refl 0
    · exact absurd h (by simp)
  · intro hload u hu
    have hlast : u.last_maintenance_ride_count = 0 := by
      cases file with
      | none =>
        injection hload with hload
        subst hload
        simp at hu
      | some f =>
        simp only [load_vehicles_from_csv] at hload
        by_cases hh : f.header = []
        · rw [if_pos hh] at hload
          injection hload with hload
          subst hload
          simp at hu
        · rw [if_neg hh] at hload
          exact loadVehicleRows_last_zero f.header f.rows vs hload u hu
    exact ⟨hlast, fun h0 => by
      unfold maintenance_invariant
      omega⟩

/-- C8 as stated is false on the code: loading a CSV row with
`rides_since_last_treated = -5` succeeds and produces a vehicle with
`ride_count = -5` but `last_maintenance_ride_count = 0`, violating
`ride_count >= last_maintenance_ride_count`. -/
theorem c8_maintenance_invariant_counterexample :
    load_vehicles_from_csv (some negRidesCsv)
      = .ok [{ vehicle_id := "v1", frame_number := "FRAME-v1",
               status := .available, ride_count := -5, has_helmet := false,
               last_maintenance_ride_count := 0, kind := .bike false }]
    ∧ ¬ maintenance_invariant
        { vehicle_id := "v1", frame_number := "FRAME-v1",
          status := .available, ride_count := -5, has_helmet := false,
          last_maintenance_ride_count := 0, kind := .bike false } := by
  refine ⟨by rfl, ?_⟩
  unfold maintenance_invariant
  decide

/-- Concrete instantiation of `c8_maintenance_invariant_amended`. -/
theorem c8_maintenance_invariant_amended_witness :
    maintenance_invariant (Bike.init ("b1") ("f1") false .available)
    ∧ maintenance_invariant
        { vehicle_id := "e1", frame_number := "f1", status := .available,
          ride_count := 0, has_helmet := false,
          last_maintenance_ride_count := 0,
          kind := VehicleKind.ebike 50 }
    ∧ ((⟨"w1", "f1", .available, 7, false, 3, .bike false⟩ : Vehicle)
        |>.complete_maintenance |> maintenance_invariant)
    ∧ ({ vehicle_id := "v1", frame_number := "FRAME-v1",
         status := VehicleStatus.available, ride_count := 0,
         has_helmet := false, last_maintenance_ride_count := 0,
         kind := VehicleKind.bike false } : Vehicle).last_maintenance_ride_count
        = 0 := by
  refine ⟨?_, ?_, ?_, ?_⟩
  · exact (c8_maintenance_invariant_amended ("b1") ("f1") false 50 .available
      (Bike.init ("b1") ("f1") false .available)
      (Bike.init ("b1") ("f1") false .available) none []).1
  · exact (c8_maintenance_invariant_amended ("e1") ("f1") false 50 .available
      { vehicle_id := "e1", frame_number := "f1", status := .available,
        ride_count := 0, has_helmet := false,
        last_maintenance_ride_count := 0, kind := VehicleKind.ebike 50 }
      (Bike.init ("e1") ("f1") false .available) none []).2.1 (by rfl)
  · exact (c8_maintenance_invariant_amended ("w1") ("f1") false 50 .available
      (Bike.init ("w1") ("f1") false .available)
      (⟨"w1", "f1", .available, 7, false, 3, .bike false⟩ : Vehicle)
      none []).2.2.2.1
  · exact ((c8_maintenance_invariant_amended ("v1") ("f1") false 50 .available
      (Bike.init ("v1") ("f1") false .available)
      (Bike.init ("v1") ("f1") false .available)
      (some { header := vehiclesHeader
              rows := [["v1", "1", "bicycle", "available", "0",
                "2026-01-01"]] })
      [{ vehicle_id := "v1", frame_number := "FRAME-v1",
         status := VehicleStatus.available, ride_count := 0,
         has_helmet := false, last_maintenance_ride_count := 0,
         kind := VehicleKind.bike false }]).2.2.2.2 (by rfl)
      _ (by simp)).1

/-- C9: the loader's intended skip-per-row behavior holds for the malformed
rows its `except (ValueError, KeyError)` handler anticipates, and a
missing file yields `[]`; but a data row physically shorter than the
header is padded with `None` by `csv.DictReader`, the loader then calls
`.strip()` on `None`, and the resulting `AttributeError` is not caught:
the whole load aborts, losing the valid rows, instead of skipping the
invalid row. -/
theorem c9_loader_short_row_fatal :
    load_vehicles_from_csv none = .ok []
    ∧ load_vehicles_from_csv
        (some { header := vehiclesHeader
                rows := [["v1", "1", "bicycle", "available", "0",
                  "2026-01-01"]] })
        = .ok [{ vehicle_id := "v1", frame_number := "FRAME-v1",
                 status := .available, ride_count := 0, has_helmet := false,
                 last_maintenance_ride_count := 0, kind := .bike false }]
    ∧ load_vehicles_from_csv
        (some { header := vehiclesHeader ++ ["frame_number", "battery_level"]
                rows := [["e1", "1", "electric_bicycle", "in_use", "3",
                  "2026-01-01", "", "999"]] })
        = .ok [{ vehicle_id := "e1", frame_number := "FRAME-e1",
                 status := .in_use, ride_count := 3, has_helmet := false,
                 last_maintenance_ride_count := 0, kind := .ebike 100 }]
    ∧ load_vehicles_from_csv (some shortRowCsv)
        = .error ("AttributeError: NoneType object has no attribute strip")
    := by
  exact ⟨rfl, by rfl, by rfl, by rfl⟩

theorem b64Char_facts :
    ∀ n < 64, b64Char n ≠ '=' ∧ b64Char n ≠ '$'
      ∧ b64StdVal (b64Translate (b64Char n)) = some n := by
  decide

theorem b64Sextets_lt :
    ∀ (bs : List Nat), (∀ b ∈ bs, b < 256) → ∀ s ∈ b64Sextets bs, s < 64
  | [] => by intro _ s hs; simp [b64Sextets] at hs
  | [b1] => by
    intro h s hs
    have hb1 : b1 < 256 := h b1 (by simp)
    simp [b64Sextets] at hs
    rcases hs with rfl | rfl <;> omega
  | [b1, b2] => by
    intro h s hs
    have hb1 : b1 < 256 := h b1 (by simp)
    have hb2 : b2 < 256 := h b2 (by simp)
    simp [b64Sextets] at hs
    rcases hs with rfl | rfl | rfl <;> omega
  | b1 :: b2 :: b3 :: rest => by
    intro h s hs
    have hb1 : b1 < 256 := h b1 (by simp)
    have hb2 : b2 < 256 := h b2 (by simp)
    have hb3 : b3 < 256 := h b3 (by simp)
    rw [show b64Sextets (b1 :: b2 :: b3 :: rest)
      = b1 / 4 :: (b1 % 4 * 16 + b2 / 16) :: (b2 % 16 * 4 + b3 / 64)
        :: b3 % 64 :: b64Sextets rest from rfl] at hs
    simp only [List.mem_cons] at hs
    rcases hs with rfl | rfl | rfl | rfl | hs
    · omega
    · omega
    · omega
    · omega
    · exact b64Sextets_lt rest
        (fun b hb => h b (by simp [List.mem_cons] at hb ⊢; tauto)) s hs

theorem b64DecodeChunks_sextets :
    ∀ (bs : List Nat), (∀ b ∈ bs, b < 256) →
      b64DecodeChunks (b64Sextets bs) = bs
  | [] => by intro _; rfl
  | [b1] => by
    intro h
    have hb1 : b1 < 256 := h b1 (by simp)
    simp only [b64Sextets, b64DecodeChunks]
    congr 1
    omega
  | [b1, b2] => by
    intro h
    have hb1 : b1 < 256 := h b1 (by simp)
    have hb2 : b2 < 256 := h b2 (by simp)
    simp only [b64Sextets, b64DecodeChunks]
    congr 1
    · omega
    · congr 1
      omega
  | b1 :: b2 :: b3 :: rest => by
    intro h
    have hb1 : b1 < 256 := h b1 (by simp)
    have hb2 : b2 < 256 := h b2 (by simp)
    have hb3 : b3 < 256 := h b3 (by simp)
    have hrec := b64DecodeChunks_sextets rest
      (fun b hb => h b (by simp [List.mem_cons] at hb ⊢; tauto))
    rw [show b64Sextets (b1 :: b2 :: b3 :: rest)
      = b1 / 4 :: (b1 % 4 * 16 + b2 / 16) :: (b2 % 16 * 4 + b3 / 64)
        :: b3 % 64 :: b64Sextets rest from rfl]
    rw [show b64DecodeChunks (b1 / 4 :: (b1 % 4 * 16 + b2 / 16)
        :: (b2 % 16 * 4 + b3 / 64) :: b3 % 64 :: b64Sextets rest)
      = (b1 / 4 * 4 + (b1 % 4 * 16 + b2 / 16) / 16)
        :: ((b1 % 4 * 16 + b2 / 16) % 16 * 16 + (b2 % 16 * 4 + b3 / 64) / 4)
        :: ((b2 % 16 * 4 + b3 / 64) % 4 * 64 + b3 % 64)
        :: b64DecodeChunks (b64Sextets rest) from rfl]
    rw [hrec]
    congr 1
    · omega
    congr 1
    · omega
    congr 1
    omega

theorem b64Sextets_length_mod :
    ∀ (bs : List Nat), (b64Sextets bs).length % 4 ≠ 1
  | [] => by simp [b64Sextets]
  | [b1] => by simp [b64Sextets]
  | [b1, b2] => by simp [b64Sextets]
  | b1 :: b2 :: b3 :: rest => by
    have ih := b64Sextets_length_mod rest
    rw [show b64Sextets (b1 :: b2 :: b3 :: rest)
      = b1 / 4 :: (b1 % 4 * 16 + b2 / 16) :: (b2 % 16 * 4 + b3 / 64)
        :: b3 % 64 :: b64Sextets rest from rfl]
    simp only [List.length_cons]
    omega

theorem takeWhile_append_of_all {α : Type} (p : α → Bool)
    (l₁ l₂ : List α) (h : ∀ a ∈ l₁, p a = true) :
    (l₁ ++ l₂).takeWhile p = l₁ ++ l₂.takeWhile p := by
  induction l₁ with
  | nil => simp
  | cons x xs ih =>
    have hx := h x (by simp)
    simp only [List.cons_append, List.takeWhile_cons, hx, if_true]
    rw [ih (fun a ha => h a (by simp [ha]))]

theorem dropWhile_append_of_all {α : Type} (p : α → Bool)
    (l₁ l₂ : List α) (h : ∀ a ∈ l₁, p a = true) :
    (l₁ ++ l₂).dropWhile p = l₂.dropWhile p := by
  induction l₁ with
  | nil => simp
  | cons x xs ih =>
    have hx := h x (by simp)
    simp only [List.cons_append, List.dropWhile_cons, hx, if_true]
    exact ih (fun a ha => h a (by simp [ha]))

theorem b64EncodeNoPad_mem (bs : List Nat) (h : ∀ b ∈ bs, b < 256) :
    ∀ c ∈ b64EncodeNoPad bs,
      c ≠ '=' ∧ c ≠ '$' ∧ ∃ s, s < 64 ∧ s ∈ b64Sextets bs ∧ c = b64Char s
        ∧ b64StdVal (b64Translate c) = some s := by
  intro c hc
  simp only [b64EncodeNoPad, List.mem_map] at hc
  obtain ⟨s, hs, rfl⟩ := hc
  have hlt := b64Sextets_lt bs h s hs
  obtain ⟨h1, h2, h3⟩ := b64Char_facts s hlt
  exact ⟨h1, h2, s, hlt, hs, rfl, h3⟩

theorem b64Decode_padEq_encode (bs : List Nat) (h : ∀ b ∈ bs, b < 256) :
    b64Decode (padEq (b64EncodeNoPad bs)) = .ok bs := by
  have hmem := b64EncodeNoPad_mem bs h
  set enc := b64EncodeNoPad bs with henc
  have htrans : ∀ c ∈ enc.map b64Translate,
      (b64StdVal c).isSome ∧ c ≠ '=' := by
    intro c hc
    simp only [List.mem_map] at hc
    obtain ⟨c0, hc0, rfl⟩ := hc
    obtain ⟨-, -, s, -, -, -, hval⟩ := hmem c0 hc0
    refine ⟨by simp [hval], ?_⟩
    intro hcontra
    rw [hcontra] at hval
    simp [b64StdVal] at hval
  unfold b64Decode padEq
  have hmapped : (enc ++ List.replicate ((4 - enc.length % 4) % 4) '=').map
      b64Translate
      = enc.map b64Translate
        ++ List.replicate ((4 - enc.length % 4) % 4) '=' := by
    rw [List.map_append]
    congr 1
    rw [List.map_replicate]
    rfl
  rw [hmapped]
  have hfilter : (enc.map b64Translate
      ++ List.replicate ((4 - enc.length % 4) % 4) '=').filter
        (fun c => (b64StdVal c).isSome || c == '=')
      = enc.map b64Translate
        ++ List.replicate ((4 - enc.length % 4) % 4) '=' := by
    rw [List.filter_eq_self]
    intro c hc
    rcases List.mem_append.mp hc with hc | hc
    · simp [(htrans c hc).1]
    · have : c = '=' := List.eq_of_mem_replicate hc
      simp [this]
  rw [hfilter]
  have htake : (enc.map b64Translate
      ++ List.replicate ((4 - enc.length % 4) % 4) '=').takeWhile
        (fun c => c != '=')
      = enc.map b64Translate := by
    rw [takeWhile_append_of_all _ _ _
      (fun c hc => by simp [(htrans c hc).2])]
    cases hk : (4 - enc.length % 4) % 4 with
    | zero => simp
    | succ k => simp [List.replicate_succ, List.takeWhile_cons]
  unfold b64DecodeKept
  rw [htake]
  have hlen : (enc.map b64Translate).length = (b64Sextets bs).length := by
    simp [henc, b64EncodeNoPad]
  have hmod := b64Sextets_length_mod bs
  rw [if_neg (by omega)]
  have hval : (enc.map b64Translate).map (fun c => (b64StdVal c).getD 0)
      = b64Sextets bs := by
    rw [henc]
    unfold b64EncodeNoPad
    rw [List.map_map, List.map_map]
    refine List.map_congr_left ?_ |>.trans (List.map_id _)
    intro s hs
    have hlt := b64Sextets_lt bs h s hs
    obtain ⟨-, -, h3⟩ := b64Char_facts s hlt
    simp [Function.comp, h3]
  by_cases hz : (enc.map b64Translate).length % 4 = 0
  · rw [if_neg (by omega)]
    rw [hval, b64DecodeChunks_sextets bs h]
  · have hpadpos : 0 < (4 - enc.length % 4) % 4 := by
      have : enc.length = (enc.map b64Translate).length := by simp
      omega
    rw [if_neg (by
      intro hcontra
      have := hcontra.2
      rw [List.length_append, List.length_replicate] at this
      omega)]
    rw [hval, b64DecodeChunks_sextets bs h]

theorem splitDollar_step (k : Nat) (l r : List Char)
    (hl : ∀ x ∈ l, x ≠ '$') :
    splitDollar (k + 1) (l ++ '$' :: r) = l :: splitDollar k r := by
  have ht : (l ++ '$' :: r).takeWhile (fun x => x != '$') = l := by
    rw [takeWhile_append_of_all _ _ _ (fun x hx => by simp [hl x hx])]
    simp [List.takeWhile_cons]
  have hd : (l ++ '$' :: r).dropWhile (fun x => x != '$') = '$' :: r := by
    rw [dropWhile_append_of_all _ _ _ (fun x hx => by simp [hl x hx])]
    simp [List.dropWhile_cons]
  have hkey : splitDollar (k + 1) (l ++ '$' :: r)
      = match (l ++ '$' :: r).dropWhile (fun c => c != '$') with
        | [] => [(l ++ '$' :: r).takeWhile (fun c => c != '$')]
        | _ :: rest =>
          (l ++ '$' :: r).takeWhile (fun c => c != '$') :: splitDollar k rest
      := rfl
  rw [hkey, hd, ht]

theorem splitDollar_quad (a b c d : List Char)
    (ha : ∀ x ∈ a, x ≠ '$') (hb : ∀ x ∈ b, x ≠ '$')
    (hc : ∀ x ∈ c, x ≠ '$') :
    splitDollar 3 (a ++ '$' :: (b ++ '$' :: (c ++ '$' :: d)))
      = [a, b, c, d] := by
  rw [show (3 : Nat) = 2 + 1 from rfl,
    splitDollar_step 2 a (b ++ '$' :: (c ++ '$' :: d)) ha,
    show (2 : Nat) = 1 + 1 from rfl,
    splitDollar_step 1 b (c ++ '$' :: d) hb,
    show (1 : Nat) = 0 + 1 from rfl,
    splitDollar_step 0 c d hc]
  rfl

theorem pyIntOfChars_iterations :
    pyIntOfChars (Nat.toDigits 10 PWD_ITERATIONS)
      = some (PWD_ITERATIONS : Int) := by
  decide

theorem no_dollar_algo : ∀ x ∈ PWD_ALGO, x ≠ '$' := by
  decide

theorem no_dollar_iterations : ∀ x ∈ Nat.toDigits 10 PWD_ITERATIONS,
    x ≠ '$' := by
  decide

/-- C5: with `pbkdf2_hmac` abstracted as any deterministic function `kdf`
returning `dklen` bytes, and the 16 random salt bytes passed explicitly:
verifying a password against its own freshly computed hash returns true
(the stored salt, iteration count and key length round-trip through the
encoding); verifying a different password whose derived key differs
returns false; and the malformed stored hashes of each category the claim
lists — too few `$`-separated fields, a wrong algorithm tag, a
non-numeric iteration count, invalid base64 (five data characters, a
length of 1 mod 4) — yield false for every password, the verifier being a
total function (never raising past the verification boundary). -/
theorem c5_password_verify (kdf : String → List Nat → Int → Nat → List Nat)
    (hlen : ∀ pw salt iters dklen, (kdf pw salt iters dklen).length = dklen)
    (hbytes : ∀ pw salt iters dklen b, b ∈ kdf pw salt iters dklen → b < 256)
    (salt : List Nat) (hsalt : ∀ b ∈ salt, b < 256)
    (pw pw' : String) (stored : List Char)
    (hhash : hash_password kdf salt pw = .ok stored) :
    verify_password kdf pw stored = true
    ∧ (kdf pw' salt (PWD_ITERATIONS : Int) 32
        ≠ kdf pw salt (PWD_ITERATIONS : Int) 32 →
      verify_password kdf pw' stored = false)
    ∧ verify_password kdf pw' ("pbkdf2_sha256$210000".data) = false
    ∧ verify_password kdf pw' ("md5$210000$QUFB$QUFB".data) = false
    ∧ verify_password kdf pw' ("pbkdf2_sha256$iterations$QUFB$QUFB".data)
        = false
    ∧ verify_password kdf pw' ("pbkdf2_sha256$210000$abcde$QUFB".data)
        = false := by
  set dk := kdf pw salt (PWD_ITERATIONS : Int) 32 with hdk
  have hdkbytes : ∀ b ∈ dk, b < 256 :=
    fun b hb => hbytes pw salt (PWD_ITERATIONS : Int) 32 b hb
  have hstored : stored = PWD_ALGO ++ '$' :: Nat.toDigits 10 PWD_ITERATIONS
      ++ '$' :: b64EncodeNoPad salt ++ '$' :: b64EncodeNoPad dk := by
    unfold hash_password at hhash
    split at hhash
    · exact absurd hhash (by simp)
    · injection hhash with hhash
      exact hhash.symm
  have hsplit : splitDollar 3 stored
      = [PWD_ALGO, Nat.toDigits 10 PWD_ITERATIONS, b64EncodeNoPad salt,
         b64EncodeNoPad dk] := by
    rw [hstored]
    exact splitDollar_quad _ _ _ _ no_dollar_algo no_dollar_iterations
      (fun x hx => ((b64EncodeNoPad_mem salt hsalt) x hx).2.1)
  have hverify : ∀ q : String,
      verify_password kdf q stored
        = decide (kdf q salt (PWD_ITERATIONS : Int) 32 = dk) := by
    intro q
    unfold verify_password
    rw [hsplit]
    simp only [ne_eq, not_true_eq_false, if_false, pyIntOfChars_iterations,
      b64Decode_padEq_encode salt hsalt, b64Decode_padEq_encode dk hdkbytes,
      hlen pw salt (PWD_ITERATIONS : Int) 32]
  refine ⟨?_, ?_, by rfl, by rfl, by rfl, by rfl⟩
  · rw [hverify pw]
    simp [hdk]
  · intro hne
    rw [hverify pw']
    simpa using hne

/-- Concrete instantiation of `c5_password_verify` with `demoKdf`: the
round trip verifies, a different password fails, and each malformed
stored hash yields false. -/
theorem c5_password_verify_witness :
    verify_password demoKdf ("password") demoStored = true
    ∧ verify_password demoKdf ("passwords") demoStored = false
    ∧ verify_password demoKdf ("passwords") ("pbkdf2_sha256$210000".data)
        = false
    ∧ verify_password demoKdf ("passwords") ("md5$210000$QUFB$QUFB".data)
        = false
    ∧ verify_password demoKdf ("passwords")
        ("pbkdf2_sha256$iterations$QUFB$QUFB".data) = false
    ∧ verify_password demoKdf ("passwords")
        ("pbkdf2_sha256$210000$abcde$QUFB".data) = false := by
  have h := c5_password_verify demoKdf
    (fun pw salt iters dklen => List.length_replicate dklen _)
    (fun pw salt iters dklen b hb => by
      simp only [demoKdf, List.mem_replicate] at hb
      have := Nat.min_le_left 255 pw.length
      omega)
    demoSalt
    (fun b hb => by
      simp only [demoSalt, List.mem_replicate] at hb
      omega)
    ("password") ("passwords") demoStored (by rfl)
  exact ⟨h.1, h.2.1 (by decide), h.2.2.1, h.2.2.2.1, h.2.2.2.2.1,
    h.2.2.2.2.2⟩

end TlvFlow
